import Mathlib

/-!
Verification of the XPA connector in `lsst/display_ds9`
(`src/python/lsst/display/ds9/xpa.cc`).

The module wraps an external messaging transport ("XPA") behind three
request wrappers (`XPAGet1`, `XPASet1`, `XPASetFd1`) and a process-wide
lazily-created connection singleton (`myXPA`) with a `reset` entry point.

Shallow embedding conventions:
* C byte buffers (`char *`) are `Option (List Nat)`: `none` is a NULL
  pointer, `some bs` is the sequence of accessible bytes.  Strings
  returned by the wrappers (payload, error text, `""`) are `List Nat`
  of bytes; the empty C string is `[]`.
* The transport is a black box.  Its response to one request is a record
  (`GetResponse` / `SetResponse`) holding the match count and the
  `buf` / `error` out-parameters that `XPAGet` / `XPASet` / `XPASetFd`
  fill in.
* C++ exceptions (`LSST_EXCEPT(... IoError, msg)`) are the `Except`
  monad with error type `XpaError` carrying the exact message string.
* The singleton (`myXPA::get`, `reset`) is a state machine on
  `MgrState`; calls to the transport's `XPAOpen` / `XPAClose`
  primitives are recorded as an event trace (`Ev`).  The environment
  `env : Nat → Bool` tells whether the k-th `XPAOpen` attempt succeeds;
  a successful attempt number is used as the fresh handle id.
-/

/-- Error raised by the bindings: `LSST_EXCEPT(lsst::pex::exceptions::IoError, msg)`. -/
inductive XpaError where
  | ioError (msg : String) : XpaError
  deriving DecidableEq, Repr

/-- Out-parameters of one `XPAGet(xpa, xtemplate, paramlist, mode, &buf, &len, NULL, &error, 1)`
call: the returned match count `n`, the payload buffer `buf` (NULL or bytes)
and the error string `error` (NULL or bytes). -/
structure GetResponse where
  n : Int
  buf : Option (List Nat)
  error : Option (List Nat)
  deriving DecidableEq, Repr

/-- Out-parameters of one `XPASet` / `XPASetFd` call: the returned match
count `n` and the error string (NULL or bytes). -/
structure SetResponse where
  n : Int
  error : Option (List Nat)
  deriving DecidableEq, Repr

/-- Outcome classification shared by `XPASet1` and `XPASetFd1`
(`xpa.cc` lines 112-121 and 133-141):

    if (n == 0) { throw LSST_EXCEPT(IoError, msg); }
    if (error != NULL) { return error; }
    return "";
-/
def setOutcome (msg : String) (resp : SetResponse) : Except XpaError (List Nat) :=
  if resp.n = 0 then
    .error (.ioError msg)
  else
    match resp.error with
    | some e => .ok e
    | none => .ok []

/-- Outcome classification of `XPAGet1` (`xpa.cc` lines 84-96):

    if (n == 0) { throw LSST_EXCEPT(IoError, "XPAGet returned 0"); }
    if (error != NULL) { return error; }
    if (buf == NULL) { throw LSST_EXCEPT(IoError, "XPAGet returned a null buffer pointer"); }
    return buf;
-/
def getOutcome (resp : GetResponse) : Except XpaError (List Nat) :=
  if resp.n = 0 then
    .error (.ioError "XPAGet returned 0")
  else
    match resp.error with
    | some e => .ok e
    | none =>
      match resp.buf with
      | none => .error (.ioError "XPAGet returned a null buffer pointer")
      | some b => .ok b

/-- C `strlen` on the bytes of a buffer: the number of bytes before the
first NUL byte, or `none` when no NUL terminator is reachable (reading
past the end of the buffer is undefined behaviour). -/
def cstrlen : List Nat → Option Nat
  | [] => none
  | b :: bs => if b = 0 then some 0 else (cstrlen bs).map (· + 1)

/-- C `strlen` on a `char *`: undefined (`none`) on a NULL pointer. -/
def cstrlenPtr : Option (List Nat) → Option Nat
  | none => none
  | some bs => cstrlen bs

/-- The length argument `XPASet1` hands to the transport's `XPASet`
(`xpa.cc` lines 103-105): a negative `len` is replaced by `strlen(buf)`;
`none` when that computation is undefined (NULL or unterminated buffer). -/
def setLenArg (buf : Option (List Nat)) (len : Int) : Option Int :=
  if len < 0 then (cstrlenPtr buf).map Int.ofNat else some len

/-- `XPASet1` with the transport as a black box: `t` maps the length
argument it receives to the `XPASet` out-parameters.  `none` when the
wrapper's own length computation is undefined behaviour. -/
def XPASet1 (t : Int → SetResponse) (buf : Option (List Nat)) (len : Int) :
    Option (Except XpaError (List Nat)) :=
  (setLenArg buf len).map fun l => setOutcome "XPASet returned 0" (t l)

/-- `XPASetFd1`: no payload buffer, classification only. -/
def XPASetFd1 (resp : SetResponse) : Except XpaError (List Nat) :=
  setOutcome "XPASetFd returned 0" resp

/-- A call to one of the transport's connection-lifecycle primitives:
`XPAOpen(mode)` returning handle `id`, or `XPAClose(id)`. -/
inductive Ev where
  | opened (id : Nat) (mode : String) : Ev
  | closed (id : Nat) : Ev
  deriving DecidableEq, Repr

/-- State of the `myXPA` singleton: `xpa` is the handle stored in
`myXPA::_xpa` behind a live `singleton` pointer (`none` when
`singleton == NULL`); `attempts` counts the `XPAOpen` calls made so far
(used to index the environment and to mint fresh handle ids). -/
structure MgrState where
  xpa : Option Nat
  attempts : Nat
  deriving DecidableEq, Repr

/-- Program start: `static myXPA *singleton = NULL`. -/
def initState : MgrState := { xpa := none, attempts := 0 }

/-- `myXPA::get(reset)` (`xpa.cc` lines 38-51), the only code that touches
the singleton:

    if (reset && singleton != NULL) { delete singleton; singleton = NULL; }   // XPAClose
    if (singleton == NULL) { singleton = new myXPA("w"); }                    // XPAOpen("w"), throws on NULL
    return singleton->_xpa;

`env k` tells whether the k-th `XPAOpen` succeeds.  Returns the new
state, the lifecycle events in order, and the returned handle or the
thrown `IoError("Unable to open XPA")` from the `myXPA` constructor. -/
def myXPAget (env : Nat → Bool) (rst : Bool) (s : MgrState) :
    MgrState × List Ev × Except XpaError Nat :=
  let afterReset : MgrState × List Ev :=
    match s.xpa, rst with
    | some h, true => ({ s with xpa := none }, [Ev.closed h])
    | _, _ => (s, [])
  let s1 := afterReset.1
  let evs1 := afterReset.2
  match s1.xpa with
  | some h => (s1, evs1, .ok h)
  | none =>
    if env s1.attempts then
      ({ xpa := some s1.attempts, attempts := s1.attempts + 1 },
       evs1 ++ [Ev.opened s1.attempts "w"], .ok s1.attempts)
    else
      ({ s1 with attempts := s1.attempts + 1 }, evs1,
       .error (.ioError "Unable to open XPA"))

/-- The manager-visible footprint of one program operation: `acquire`
is `myXPA::get()` as performed by `XPAGet1` / `XPASet1` / `XPASetFd1`
when called with a NULL handle; `rst` is the module-level `reset()`,
which is `void reset() { myXPA::get(true); }`; `reqExplicit h` is any
of the three wrappers called with an explicit (caller-owned) handle
`h`, which never consults or mutates the singleton.  The request
classification itself is pure (`getOutcome` / `setOutcome`) and touches
neither the singleton nor the connection lifecycle. -/
inductive Op where
  | acquire : Op
  | rst : Op
  | reqExplicit (h : Nat) : Op
  deriving DecidableEq, Repr

/-- One operation as a state transition with its event trace and result. -/
def stepOp (env : Nat → Bool) (op : Op) (s : MgrState) :
    MgrState × List Ev × Except XpaError Nat :=
  match op with
  | .acquire => myXPAget env false s
  | .rst => myXPAget env true s
  | .reqExplicit h => (s, [], .ok h)

/-- Run a sequence of operations, collecting the concatenated event
trace and the list of per-operation results. -/
def runOps (env : Nat → Bool) (s : MgrState) :
    List Op → MgrState × List Ev × List (Except XpaError Nat)
  | [] => (s, [], [])
  | op :: ops =>
    let r1 := stepOp env op s
    let r2 := runOps env r1.1 ops
    (r2.1, r1.2.1 ++ r2.2.1, r1.2.2 :: r2.2.2)

/-- `XPAGet1` (`xpa.cc` lines 75-97) as a state transition: resolve the
handle (`myXPA::get()` when the caller passed NULL), then issue the
request and classify the outcome.  `t` maps the handle used to the
transport's `XPAGet` out-parameters. -/
def XPAGet1run (env : Nat → Bool) (t : Nat → GetResponse)
    (xpa : Option Nat) (s : MgrState) :
    MgrState × List Ev × Except XpaError (List Nat) :=
  match xpa with
  | some h => (s, [], getOutcome (t h))
  | none =>
    match myXPAget env false s with
    | (s1, evs, .ok h) => (s1, evs, getOutcome (t h))
    | (s1, evs, .error e) => (s1, evs, .error e)

/-- `XPASet1` (`xpa.cc` lines 99-122) as a state transition.  The length
computation (`strlen` on a negative `len`) happens before the handle is
resolved, exactly as in the source; the result is `none` when that
computation is undefined behaviour.  `t` maps the handle used and the
length argument to the transport's `XPASet` out-parameters. -/
def XPASet1run (env : Nat → Bool) (t : Nat → Int → SetResponse)
    (xpa : Option Nat) (s : MgrState) (buf : Option (List Nat)) (len : Int) :
    Option (MgrState × List Ev × Except XpaError (List Nat)) :=
  (setLenArg buf len).map fun l =>
    match xpa with
    | some h => (s, [], setOutcome "XPASet returned 0" (t h l))
    | none =>
      match myXPAget env false s with
      | (s1, evs, .ok h) => (s1, evs, setOutcome "XPASet returned 0" (t h l))
      | (s1, evs, .error e) => (s1, evs, .error e)

/-- `XPASetFd1` (`xpa.cc` lines 124-142) as a state transition. -/
def XPASetFd1run (env : Nat → Bool) (t : Nat → SetResponse)
    (xpa : Option Nat) (s : MgrState) :
    MgrState × List Ev × Except XpaError (List Nat) :=
  match xpa with
  | some h => (s, [], setOutcome "XPASetFd returned 0" (t h))
  | none =>
    match myXPAget env false s with
    | (s1, evs, .ok h) => (s1, evs, setOutcome "XPASetFd returned 0" (t h))
    | (s1, evs, .error e) => (s1, evs, .error e)

/-- The ids closed in a trace, in order. -/
def closedIds : List Ev → List Nat
  | [] => []
  | Ev.closed h :: evs => h :: closedIds evs
  | Ev.opened _ _ :: evs => closedIds evs

/-- The ids opened in a trace, in order. -/
def openedIds : List Ev → List Nat
  | [] => []
  | Ev.opened h _ :: evs => h :: openedIds evs
  | Ev.closed _ :: evs => openedIds evs

/-- `balOk l evs`: replaying `evs` starting from `l` live connections,
every `XPAOpen` happens with no connection live and every `XPAClose`
with exactly one live — i.e. at most one session exists at any instant
of the trace. -/
def balOk : Nat → List Ev → Bool
  | _, [] => true
  | l, Ev.opened _ _ :: evs => l == 0 && balOk 1 evs
  | l, Ev.closed _ :: evs => l == 1 && balOk 0 evs

/-- Number of live connections contributed by a manager state. -/
def live (s : MgrState) : Nat :=
  match s.xpa with
  | some _ => 1
  | none => 0

/-- C1: for every `XPAGet1` call that reaches the transport: zero
matching responders raises the `IoError` ("XPAGet returned 0"); with a
responder matched, a non-NULL protocol error string is returned exactly
as the result (no exception); a NULL payload with no error string raises
the `IoError` ("XPAGet returned a null buffer pointer"); otherwise the
payload is returned unchanged, byte for byte. -/
theorem C1_get_outcomes (resp : GetResponse) :
    (resp.n = 0 → getOutcome resp = .error (.ioError "XPAGet returned 0")) ∧
    (resp.n ≠ 0 → ∀ e, resp.error = some e → getOutcome resp = .ok e) ∧
    (resp.n ≠ 0 → resp.error = none → resp.buf = none →
      getOutcome resp = .error (.ioError "XPAGet returned a null buffer pointer")) ∧
    (resp.n ≠ 0 → resp.error = none → ∀ b, resp.buf = some b →
      getOutcome resp = .ok b) := by
  refine ⟨fun h0 => ?_, fun hn e he => ?_, fun hn he hb => ?_, fun hn he b hb => ?_⟩
  · simp [getOutcome, h0]
  · simp [getOutcome, hn, he]
  · simp [getOutcome, hn, he, hb]
  · simp [getOutcome, hn, he, hb]

/-- Witness for C1 at concrete transport responses: one match with
payload bytes `[49]` and no error returns exactly `[49]`; one match with
error bytes `[88]` returns `[88]`. -/
theorem C1_get_outcomes_witness :
    getOutcome { n := 1, buf := some [49], error := none } = .ok [49] ∧
    getOutcome { n := 1, buf := none, error := some [88] } = .ok [88] :=
  ⟨(C1_get_outcomes _).2.2.2 (by decide) rfl [49] rfl,
   (C1_get_outcomes _).2.1 (by decide) [88] rfl⟩

/-- C2: for every `XPASet1` call whose length computation is defined, and
every `XPASetFd1` call: nonzero match count with no error string yields
the empty string; zero match count raises the respective `IoError`; with
a responder matched, a non-NULL error string is returned verbatim. -/
theorem C2_set_setFd_outcomes (resp : SetResponse) (buf : Option (List Nat))
    (len : Int) (res : Except XpaError (List Nat))
    (hcall : XPASet1 (fun _ => resp) buf len = some res) :
    (resp.n ≠ 0 → resp.error = none → res = .ok [] ∧ XPASetFd1 resp = .ok []) ∧
    (resp.n = 0 → res = .error (.ioError "XPASet returned 0") ∧
      XPASetFd1 resp = .error (.ioError "XPASetFd returned 0")) ∧
    (resp.n ≠ 0 → ∀ e, resp.error = some e → res = .ok e ∧ XPASetFd1 resp = .ok e) := by
  have hres : res = setOutcome "XPASet returned 0" resp := by
    cases hl : setLenArg buf len with
    | none => simp [XPASet1, hl] at hcall
    | some l =>
      simp [XPASet1, hl] at hcall
      exact hcall.symm
  subst hres
  refine ⟨fun hn he => ?_, fun h0 => ?_, fun hn e he => ?_⟩
  · constructor <;> simp [setOutcome, XPASetFd1, hn, he]
  · constructor <;> simp [setOutcome, XPASetFd1, h0]
  · constructor <;> simp [setOutcome, XPASetFd1, hn, he]

/-- Witness for C2 at concrete responses: one match and no error yields
the empty string for both `set` and `setFd`; zero matches raises. -/
theorem C2_set_setFd_outcomes_witness :
    (XPASet1 (fun _ => { n := 1, error := none }) (some [65, 0]) 3 = some (.ok []) ∧
      XPASetFd1 { n := 1, error := none } = .ok []) ∧
    XPASetFd1 { n := 0, error := none } =
      .error (.ioError "XPASetFd returned 0") :=
  ⟨⟨rfl, ((C2_set_setFd_outcomes { n := 1, error := none } (some [65, 0]) 3
      (.ok []) rfl).1 (by decide) rfl).2⟩,
   ((C2_set_setFd_outcomes { n := 0, error := none } (some [65, 0]) 3
      (.error (.ioError "XPASet returned 0")) rfl).2.1 rfl).2⟩

/-- C5: `XPASet1` called with the sentinel length `-1` (the default of
the `len` parameter in the binding) invokes the transport with the
payload's NUL-terminated string length; with an explicit length
`0 ≤ len` it invokes the transport with exactly that length, whatever
the payload's natural length is. -/
theorem C5_set_length (t : Int → SetResponse) (bs : List Nat) (len : Int) :
    XPASet1 t (some bs) (-1) =
      (cstrlen bs).map (fun n => setOutcome "XPASet returned 0" (t (Int.ofNat n))) ∧
    (0 ≤ len →
      XPASet1 t (some bs) len = some (setOutcome "XPASet returned 0" (t len))) := by
  constructor
  · simp [XPASet1, setLenArg, cstrlenPtr, Option.map_map]
    rfl
  · intro hlen
    have : ¬ len < 0 := not_lt.mpr hlen
    simp [XPASet1, setLenArg, this]

/-- Witness for C5: with a transport echoing the length it received as
its error string, payload bytes `[65, 66, 0]` (natural length 2) give
back `2` under the sentinel and `7` under explicit length `7`. -/
theorem C5_set_length_witness :
    XPASet1 (fun l => { n := 1, error := some [l.toNat] }) (some [65, 66, 0]) (-1) =
      some (.ok [2]) ∧
    XPASet1 (fun l => { n := 1, error := some [l.toNat] }) (some [65, 66, 0]) 7 =
      some (.ok [7]) :=
  ⟨(C5_set_length (fun l => { n := 1, error := some [l.toNat] }) [65, 66, 0] 7).1.trans
      rfl,
   ((C5_set_length (fun l => { n := 1, error := some [l.toNat] }) [65, 66, 0] 7).2
      (by decide)).trans rfl⟩

/-- `strlen` over a byte buffer is defined exactly when the buffer
contains a NUL byte. -/
theorem cstrlen_isSome_iff (bs : List Nat) : (cstrlen bs).isSome ↔ 0 ∈ bs := by
  induction bs with
  | nil => simp [cstrlen]
  | cons b bs ih =>
    by_cases hb : b = 0
    · simp [cstrlen, hb]
    · simp [cstrlen, hb, ih, List.mem_cons]
      exact fun h => absurd h.symm hb

/-- C10: any negative `len` — not only the documented sentinel `-1` —
sends `XPASet1` through the `strlen(buf)` branch: the call is
well-defined exactly when the buffer is non-NULL and NUL-terminated,
and under that precondition it invokes the transport with the computed
string length (the branch is safe and total). -/
theorem C10_negative_len_strlen (t : Int → SetResponse) (buf : Option (List Nat))
    (len : Int) (hneg : len < 0) :
    ((XPASet1 t buf len).isSome ↔ ∃ bs, buf = some bs ∧ 0 ∈ bs) ∧
    (∀ n, cstrlenPtr buf = some n →
      XPASet1 t buf len = some (setOutcome "XPASet returned 0" (t (Int.ofNat n)))) ∧
    (cstrlenPtr buf = none → XPASet1 t buf len = none) := by
  refine ⟨?_, fun n hn => ?_, fun hn => ?_⟩
  · cases buf with
    | none => simp [XPASet1, setLenArg, cstrlenPtr, hneg]
    | some bs =>
      simp [XPASet1, setLenArg, cstrlenPtr, hneg, ← cstrlen_isSome_iff]
  · simp [XPASet1, setLenArg, hneg, hn]
  · simp [XPASet1, setLenArg, hneg, hn]

/-- Witness for C10: with `len = -3` and buffer `[0]` the transport is
invoked with length `0`; with a NULL buffer the call is undefined. -/
theorem C10_negative_len_strlen_witness :
    XPASet1 (fun _ => { n := 1, error := none }) (some [0]) (-3) = some (.ok []) ∧
    XPASet1 (fun _ => { n := 1, error := none }) none (-3) = none :=
  ⟨((C10_negative_len_strlen (fun _ => { n := 1, error := none }) (some [0]) (-3)
      (by decide)).2.1 0 rfl).trans rfl,
   (C10_negative_len_strlen (fun _ => { n := 1, error := none }) none (-3)
      (by decide)).2.2 rfl⟩

/-- `myXPA::get(false)` on a state that already holds a handle returns
it unchanged, with no transport lifecycle call. -/
theorem myXPAget_stable (env : Nat → Bool) (s : MgrState) (h : Nat)
    (hs : s.xpa = some h) : myXPAget env false s = (s, [], .ok h) := by
  simp [myXPAget, hs]

/-- Acquires on a state that already holds a handle all return it and
produce no events. -/
theorem runOps_acquire_stable (env : Nat → Bool) (s : MgrState) (h : Nat)
    (hs : s.xpa = some h) (n : Nat) :
    runOps env s (List.replicate n Op.acquire) =
      (s, [], List.replicate n (.ok h)) := by
  induction n with
  | zero => simp [runOps]
  | succ n ih =>
    simp [List.replicate_succ, runOps, stepOp, myXPAget_stable env s h hs, ih]

/-- C4: `acquire` is idempotent.  Any number of consecutive
`myXPA::get()` calls starting at program start (no intervening reset)
yield the same handle `0` as the first call, and `XPAOpen` is invoked
exactly once, on the first call; more generally a `get()` on a state
that already holds a handle returns that very handle with no transport
lifecycle call at all. -/
theorem C4_acquire_idempotent (env : Nat → Bool) (n : Nat) (henv : env 0 = true) :
    runOps env initState (List.replicate (n + 1) Op.acquire) =
      ({ xpa := some 0, attempts := 1 }, [Ev.opened 0 "w"],
       List.replicate (n + 1) (.ok 0)) ∧
    (∀ (s : MgrState) (h : Nat), s.xpa = some h →
      myXPAget env false s = (s, [], .ok h)) := by
  constructor
  · have h1 : stepOp env Op.acquire initState =
        ({ xpa := some 0, attempts := 1 }, [Ev.opened 0 "w"], .ok 0) := by
      simp [stepOp, myXPAget, initState, henv]
    have h2 := runOps_acquire_stable env { xpa := some 0, attempts := 1 } 0 rfl n
    simp [List.replicate_succ, runOps, h1, h2]
  · exact fun s h hs => myXPAget_stable env s h hs

/-- Witness for C4: three acquires from program start, every open
succeeding, return handle 0 three times with a single `XPAOpen`. -/
theorem C4_acquire_idempotent_witness :
    runOps (fun _ => true) initState [Op.acquire, Op.acquire, Op.acquire] =
      ({ xpa := some 0, attempts := 1 }, [Ev.opened 0 "w"],
       [.ok 0, .ok 0, .ok 0]) :=
  (C4_acquire_idempotent (fun _ => true) 2 rfl).1

/-- C6: with no stored handle, `acquire` opens the connection in
write-capable mode `"w"`; when `XPAOpen` fails the constructor throws
`IoError("Unable to open XPA")` and that error propagates unchanged to
the caller of `get`/`set`/`setFd` that triggered the implicit acquire —
the transport request is never issued (the result does not depend on
the transport responses `tg`/`ts`/`tf`) and no retry happens (exactly
one further open attempt is recorded). -/
theorem C6_acquire_open_mode_and_failure (env : Nat → Bool)
    (tg : Nat → GetResponse) (ts : Nat → Int → SetResponse)
    (tf : Nat → SetResponse) (s : MgrState) (hs : s.xpa = none) :
    (env s.attempts = true →
      myXPAget env false s =
        ({ xpa := some s.attempts, attempts := s.attempts + 1 },
         [Ev.opened s.attempts "w"], .ok s.attempts)) ∧
    (env s.attempts = false →
      XPAGet1run env tg none s =
        ({ xpa := none, attempts := s.attempts + 1 }, [],
         .error (.ioError "Unable to open XPA")) ∧
      XPASetFd1run env tf none s =
        ({ xpa := none, attempts := s.attempts + 1 }, [],
         .error (.ioError "Unable to open XPA")) ∧
      (∀ (bs : List Nat) (len : Int), 0 ≤ len →
        XPASet1run env ts none s (some bs) len =
          some (({ xpa := none, attempts := s.attempts + 1 } : MgrState), [],
            .error (.ioError "Unable to open XPA")))) := by
  cases s with
  | mk sx sa =>
    simp only [MgrState.mk.injEq] at hs ⊢
    subst hs
    constructor
    · intro henv
      simp [myXPAget, henv]
    · intro henv
      refine ⟨?_, ?_, fun bs len hlen => ?_⟩
      · simp [XPAGet1run, myXPAget, henv]
      · simp [XPASetFd1run, myXPAget, henv]
      · have : ¬ len < 0 := not_lt.mpr hlen
        simp [XPASet1run, setLenArg, this, myXPAget, henv]

/-- Witness for C6: from program start with a failing `XPAOpen`, a `get`
with a NULL handle raises "Unable to open XPA"; with a succeeding
`XPAOpen`, `acquire` opens handle 0 in mode "w". -/
theorem C6_acquire_open_mode_and_failure_witness :
    myXPAget (fun _ => true) false initState =
      ({ xpa := some 0, attempts := 1 }, [Ev.opened 0 "w"], .ok 0) ∧
    XPAGet1run (fun _ => false) (fun _ => { n := 1, buf := some [49], error := none })
        none initState =
      ({ xpa := none, attempts := 1 }, [], .error (.ioError "Unable to open XPA")) :=
  ⟨(C6_acquire_open_mode_and_failure (fun _ => true)
      (fun _ => { n := 1, buf := some [49], error := none })
      (fun _ _ => { n := 1, error := none }) (fun _ => { n := 1, error := none })
      initState rfl).1 rfl,
   ((C6_acquire_open_mode_and_failure (fun _ => false)
      (fun _ => { n := 1, buf := some [49], error := none })
      (fun _ _ => { n := 1, error := none }) (fun _ => { n := 1, error := none })
      initState rfl).2 rfl).1⟩

/-- C3 counterexample: `reset()` is `myXPA::get(true)`, and `get(true)`
recreates the singleton after clearing it.  From program start — no
handle exists — a single `reset()` performs an `XPAOpen` (event
`opened 0 "w"`) and leaves a live handle behind, so `reset` is not a
no-op and does open a connection; with a failing `XPAOpen` the same
call even throws `IoError("Unable to open XPA")` instead of raising no
error. -/
theorem C3_reset_opens_counterexample :
    initState.xpa = none ∧
    runOps (fun _ => true) initState [Op.rst] =
      ({ xpa := some 0, attempts := 1 }, [Ev.opened 0 "w"], [.ok 0]) ∧
    runOps (fun _ => false) initState [Op.rst] =
      ({ xpa := none, attempts := 1 }, [],
       [.error (.ioError "Unable to open XPA")]) :=
  ⟨rfl, rfl, rfl⟩

/-- C3 amended: `reset()` closes and clears the stored handle when one
exists, but then always re-runs the lazy-creation path: it immediately
opens a fresh connection (and raises `IoError("Unable to open XPA")`
when the open fails).  In particular `reset()` with no stored handle is
not a no-op: it opens a connection. -/
theorem C3_reset_closes_then_reopens (env : Nat → Bool) (s : MgrState) :
    (∀ h, s.xpa = some h → env s.attempts = true →
      myXPAget env true s =
        ({ xpa := some s.attempts, attempts := s.attempts + 1 },
         [Ev.closed h, Ev.opened s.attempts "w"], .ok s.attempts)) ∧
    (∀ h, s.xpa = some h → env s.attempts = false →
      myXPAget env true s =
        ({ xpa := none, attempts := s.attempts + 1 },
         [Ev.closed h], .error (.ioError "Unable to open XPA"))) ∧
    (s.xpa = none → env s.attempts = true →
      myXPAget env true s =
        ({ xpa := some s.attempts, attempts := s.attempts + 1 },
         [Ev.opened s.attempts "w"], .ok s.attempts)) ∧
    (s.xpa = none → env s.attempts = false →
      myXPAget env true s =
        ({ xpa := none, attempts := s.attempts + 1 }, [],
         .error (.ioError "Unable to open XPA"))) := by
  cases s with
  | mk sx sa =>
    refine ⟨fun h hx henv => ?_, fun h hx henv => ?_,
            fun hx henv => ?_, fun hx henv => ?_⟩ <;>
      simp only [] at hx <;> subst hx <;> simp [myXPAget, henv]

/-- Witness for C3 amended: a reset on a state holding handle 5 (seven
opens already attempted) closes 5 and opens fresh handle 7. -/
theorem C3_reset_closes_then_reopens_witness :
    myXPAget (fun _ => true) true { xpa := some 5, attempts := 7 } =
      ({ xpa := some 7, attempts := 8 },
       [Ev.closed 5, Ev.opened 7 "w"], .ok 7) :=
  (C3_reset_closes_then_reopens (fun _ => true)
    { xpa := some 5, attempts := 7 }).1 5 rfl rfl

/-- Number of live connections after replaying a trace from `l` live. -/
def balAfter : Nat → List Ev → Nat
  | l, [] => l
  | _, Ev.opened _ _ :: evs => balAfter 1 evs
  | _, Ev.closed _ :: evs => balAfter 0 evs

/-- `balOk` composes over trace concatenation. -/
theorem balOk_append (l : Nat) (e r : List Ev) (he : balOk l e = true)
    (hr : balOk (balAfter l e) r = true) : balOk l (e ++ r) = true := by
  induction e generalizing l with
  | nil => simpa [balAfter] using hr
  | cons ev e ih =>
    cases ev with
    | opened id mode =>
      simp only [balOk, Bool.and_eq_true] at he
      simp only [List.cons_append, balOk, Bool.and_eq_true]
      exact ⟨he.1, ih 1 he.2 (by simpa [balAfter] using hr)⟩
    | closed id =>
      simp only [balOk, Bool.and_eq_true] at he
      simp only [List.cons_append, balOk, Bool.and_eq_true]
      exact ⟨he.1, ih 0 he.2 (by simpa [balAfter] using hr)⟩

/-- Each single operation produces a balanced event trace and leaves
the live count equal to the new state's. -/
theorem stepOp_balOk (env : Nat → Bool) (op : Op) (s : MgrState) :
    balOk (live s) (stepOp env op s).2.1 = true ∧
    balAfter (live s) (stepOp env op s).2.1 = live (stepOp env op s).1 := by
  cases s with
  | mk sx sa =>
    cases op with
    | acquire =>
      cases sx with
      | none =>
        cases henv : env sa <;>
          simp [stepOp, myXPAget, live, balOk, balAfter, henv]
      | some h => simp [stepOp, myXPAget, live, balOk, balAfter]
    | rst =>
      cases sx with
      | none =>
        cases henv : env sa <;>
          simp [stepOp, myXPAget, live, balOk, balAfter, henv]
      | some h =>
        cases henv : env sa <;>
          simp [stepOp, myXPAget, live, balOk, balAfter, henv]
    | reqExplicit h => simp [stepOp, live, balOk, balAfter]

/-- Any run from any state produces a balanced trace. -/
theorem runOps_balOk (env : Nat → Bool) (ops : List Op) :
    ∀ s : MgrState, balOk (live s) (runOps env s ops).2.1 = true := by
  induction ops with
  | nil => intro s; simp [runOps, balOk]
  | cons op ops ih =>
    intro s
    simp only [runOps]
    exact balOk_append _ _ _ (stepOp_balOk env op s).1
      (by rw [(stepOp_balOk env op s).2]; exact ih _)

/-- C7: invariant — under any sequence of acquire / reset /
explicit-handle request operations from program start, at most one
implicitly-managed connection is live at any instant of the lifecycle
trace: every `XPAOpen` happens with zero live connections and every
`XPAClose` with exactly one. -/
theorem C7_at_most_one_handle (env : Nat → Bool) (ops : List Op) :
    balOk 0 (runOps env initState ops).2.1 = true :=
  runOps_balOk env ops initState

/-- `myXPA::get()` (no reset) never calls `XPAClose`. -/
theorem closedIds_acquire (env : Nat → Bool) (s : MgrState) :
    closedIds (myXPAget env false s).2.1 = [] := by
  cases s with
  | mk sx sa =>
    cases sx with
    | none => cases henv : env sa <;> simp [myXPAget, closedIds, henv]
    | some h => simp [myXPAget, closedIds]

/-- C8: frame property of the request wrappers.  Whatever the outcome —
transport failure, protocol error string, or success — `XPAGet1`,
`XPASet1` and `XPASetFd1` never close, clear or replace the stored
shared handle: when it exists they use it and leave the manager state
bit-for-bit unchanged; with an explicit caller handle they do not touch
the manager at all; and none of them ever emits an `XPAClose` call. -/
theorem C8_wrappers_frame (env : Nat → Bool) (tg : Nat → GetResponse)
    (ts : Nat → Int → SetResponse) (tf : Nat → SetResponse) (s : MgrState) :
    (∀ h, s.xpa = some h →
      XPAGet1run env tg none s = (s, [], getOutcome (tg h)) ∧
      XPASetFd1run env tf none s = (s, [], setOutcome "XPASetFd returned 0" (tf h)) ∧
      (∀ (bs : List Nat) (len : Int), 0 ≤ len →
        XPASet1run env ts none s (some bs) len =
          some (s, [], setOutcome "XPASet returned 0" (ts h len)))) ∧
    (∀ hx : Nat,
      XPAGet1run env tg (some hx) s = (s, [], getOutcome (tg hx)) ∧
      XPASetFd1run env tf (some hx) s = (s, [], setOutcome "XPASetFd returned 0" (tf hx)) ∧
      (∀ (buf : Option (List Nat)) (len l : Int), setLenArg buf len = some l →
        XPASet1run env ts (some hx) s buf len =
          some (s, [], setOutcome "XPASet returned 0" (ts hx l)))) ∧
    (∀ xpaArg : Option Nat,
      closedIds (XPAGet1run env tg xpaArg s).2.1 = [] ∧
      closedIds (XPASetFd1run env tf xpaArg s).2.1 = [] ∧
      (∀ (buf : Option (List Nat)) (len : Int)
        (r : MgrState × List Ev × Except XpaError (List Nat)),
        XPASet1run env ts xpaArg s buf len = some r → closedIds r.2.1 = [])) := by
  refine ⟨fun h hs => ?_, fun hx => ?_, fun xpaArg => ?_⟩
  · have hst := myXPAget_stable env s h hs
    refine ⟨?_, ?_, fun bs len hlen => ?_⟩
    · simp [XPAGet1run, hst]
    · simp [XPASetFd1run, hst]
    · have hnneg : ¬ len < 0 := not_lt.mpr hlen
      simp [XPASet1run, setLenArg, hnneg, hst]
  · refine ⟨by simp [XPAGet1run], by simp [XPASetFd1run], fun buf len l hl => ?_⟩
    simp [XPASet1run, hl]
  · have hacq := closedIds_acquire env s
    refine ⟨?_, ?_, fun buf len r hr => ?_⟩
    · cases xpaArg with
      | some hx => simp [XPAGet1run, closedIds]
      | none =>
        rcases hmg : myXPAget env false s with ⟨s1, evs, res⟩
        rw [hmg] at hacq
        cases res <;> simpa [XPAGet1run, hmg] using hacq
    · cases xpaArg with
      | some hx => simp [XPASetFd1run, closedIds]
      | none =>
        rcases hmg : myXPAget env false s with ⟨s1, evs, res⟩
        rw [hmg] at hacq
        cases res <;> simpa [XPASetFd1run, hmg] using hacq
    · cases hl : setLenArg buf len with
      | none => simp [XPASet1run, hl] at hr
      | some l =>
        cases xpaArg with
        | some hx =>
          simp [XPASet1run, hl] at hr
          subst hr
          simp [closedIds]
        | none =>
          rcases hmg : myXPAget env false s with ⟨s1, evs, res⟩
          rw [hmg] at hacq
          cases res with
          | ok h =>
            simp [XPASet1run, hl, hmg] at hr
            subst hr
            simpa using hacq
          | error e =>
            simp [XPASet1run, hl, hmg] at hr
            subst hr
            simpa using hacq

/-- Witness for C8: a `get` whose transport reports zero responders
(the failing case) against a state holding handle 3 raises the
`IoError` and leaves the state exactly as it was. -/
theorem C8_wrappers_frame_witness :
    XPAGet1run (fun _ => true) (fun _ => { n := 0, buf := none, error := none })
        none { xpa := some 3, attempts := 4 } =
      ({ xpa := some 3, attempts := 4 }, [], .error (.ioError "XPAGet returned 0")) :=
  (((C8_wrappers_frame (fun _ => true)
      (fun _ => { n := 0, buf := none, error := none })
      (fun _ _ => { n := 1, error := none }) (fun _ => { n := 1, error := none })
      { xpa := some 3, attempts := 4 }).1 3 rfl).1).trans rfl

/-- `closedIds` distributes over trace concatenation. -/
theorem closedIds_append (a b : List Ev) :
    closedIds (a ++ b) = closedIds a ++ closedIds b := by
  induction a with
  | nil => simp [closedIds]
  | cons ev a ih => cases ev <;> simp [closedIds, ih]

/-- `openedIds` distributes over trace concatenation. -/
theorem openedIds_append (a b : List Ev) :
    openedIds (a ++ b) = openedIds a ++ openedIds b := by
  induction a with
  | nil => simp [openedIds]
  | cons ev a ih => cases ev <;> simp [openedIds, ih]

/-- Appending one fresh element keeps a list duplicate-free. -/
theorem nodup_append_singleton (l : List Nat) (x : Nat) (hl : l.Nodup)
    (hx : x ∉ l) : (l ++ [x]).Nodup := by
  simp [List.nodup_append, hl, hx]

/-- `myXPA::get` ignores the reset flag when no handle is stored. -/
theorem myXPAget_none_flag (env : Nat → Bool) (rstb : Bool) (a : Nat) :
    myXPAget env rstb { xpa := none, attempts := a } =
      myXPAget env false { xpa := none, attempts := a } := by
  cases rstb <;> rfl

/-- `myXPA::get(false)` on an empty state with a succeeding open. -/
theorem myXPAget_open_succ (env : Nat → Bool) (a : Nat) (henv : env a = true) :
    myXPAget env false { xpa := none, attempts := a } =
      ({ xpa := some a, attempts := a + 1 }, [Ev.opened a "w"], .ok a) := by
  simp [myXPAget, henv]

/-- `myXPA::get(false)` on an empty state with a failing open. -/
theorem myXPAget_open_fail (env : Nat → Bool) (a : Nat) (henv : env a = false) :
    myXPAget env false { xpa := none, attempts := a } =
      ({ xpa := none, attempts := a + 1 }, [],
       .error (.ioError "Unable to open XPA")) := by
  simp [myXPAget, henv]

/-- `myXPA::get(true)` on a state holding a handle, succeeding open. -/
theorem myXPAget_rst_succ (env : Nat → Bool) (h a : Nat) (henv : env a = true) :
    myXPAget env true { xpa := some h, attempts := a } =
      ({ xpa := some a, attempts := a + 1 },
       [Ev.closed h, Ev.opened a "w"], .ok a) := by
  simp [myXPAget, henv]

/-- `myXPA::get(true)` on a state holding a handle, failing open. -/
theorem myXPAget_rst_fail (env : Nat → Bool) (h a : Nat) (henv : env a = false) :
    myXPAget env true { xpa := some h, attempts := a } =
      ({ xpa := none, attempts := a + 1 }, [Ev.closed h],
       .error (.ioError "Unable to open XPA")) := by
  simp [myXPAget, henv]

/-- Bookkeeping invariant tying the manager state to the lifecycle
trace emitted so far: every id in the trace is below the attempt
counter, no id is closed twice, only opened ids are closed, and the
stored handle (when present) is an opened, not-yet-closed id below the
counter. -/
def MgrInv (s : MgrState) (evs : List Ev) : Prop :=
  (∀ id ∈ closedIds evs, id < s.attempts) ∧
  (∀ id ∈ openedIds evs, id < s.attempts) ∧
  (closedIds evs).Nodup ∧
  (∀ id ∈ closedIds evs, id ∈ openedIds evs) ∧
  (∀ h, s.xpa = some h → h < s.attempts ∧ h ∉ closedIds evs ∧ h ∈ openedIds evs)

/-- `myXPA::get` preserves the bookkeeping invariant. -/
theorem myXPAget_MgrInv (env : Nat → Bool) (rstb : Bool) (s : MgrState)
    (evs : List Ev) (hI : MgrInv s evs) :
    MgrInv (myXPAget env rstb s).1 (evs ++ (myXPAget env rstb s).2.1) := by
  obtain ⟨hc, ho, hnd, hco, hx⟩ := hI
  cases s with
  | mk sx sa =>
    cases sx with
    | none =>
      rw [myXPAget_none_flag]
      cases henv : env sa with
      | true =>
        rw [myXPAget_open_succ env sa henv]
        refine ⟨?_, ?_, ?_, ?_, ?_⟩
        · intro id hid
          rw [closedIds_append] at hid
          simp only [closedIds, List.append_nil] at hid
          exact Nat.lt_succ_of_lt (hc id hid)
        · intro id hid
          rw [openedIds_append] at hid
          simp only [openedIds, List.mem_append, List.mem_singleton] at hid
          rcases hid with hid | rfl
          · exact Nat.lt_succ_of_lt (ho id hid)
          · exact Nat.lt_succ_self _
        · rw [closedIds_append]
          simpa only [closedIds, List.append_nil] using hnd
        · intro id hid
          rw [closedIds_append] at hid
          simp only [closedIds, List.append_nil] at hid
          rw [openedIds_append]
          simp only [openedIds, List.mem_append, List.mem_singleton]
          exact Or.inl (hco id hid)
        · intro h hh
          have hsa : h = sa := (Option.some.inj hh).symm
          rw [hsa]
          refine ⟨Nat.lt_succ_self sa, ?_, ?_⟩
          · rw [closedIds_append]
            simp only [closedIds, List.append_nil]
            intro hmem
            exact absurd (hc sa hmem) (lt_irrefl sa)
          · rw [openedIds_append]
            simp only [openedIds, List.mem_append, List.mem_singleton]
            exact Or.inr (by trivial)
      | false =>
        rw [myXPAget_open_fail env sa henv]
        simp only [List.append_nil]
        exact ⟨fun id hid => Nat.lt_succ_of_lt (hc id hid),
               fun id hid => Nat.lt_succ_of_lt (ho id hid), hnd, hco,
               fun h hh => Option.noConfusion hh⟩
    | some h0 =>
      cases rstb with
      | false =>
        rw [myXPAget_stable env _ h0 rfl]
        simp only [List.append_nil]
        exact ⟨hc, ho, hnd, hco, hx⟩
      | true =>
        obtain ⟨hh0lt, hh0nc, hh0op⟩ := hx h0 rfl
        cases henv : env sa with
        | true =>
          rw [myXPAget_rst_succ env h0 sa henv]
          refine ⟨?_, ?_, ?_, ?_, ?_⟩
          · intro id hid
            rw [closedIds_append] at hid
            simp only [closedIds, List.mem_append, List.mem_singleton] at hid
            rcases hid with hid | rfl
            · exact Nat.lt_succ_of_lt (hc id hid)
            · exact Nat.lt_succ_of_lt hh0lt
          · intro id hid
            rw [openedIds_append] at hid
            simp only [openedIds, List.mem_append, List.mem_singleton] at hid
            rcases hid with hid | rfl
            · exact Nat.lt_succ_of_lt (ho id hid)
            · exact Nat.lt_succ_self _
          · rw [closedIds_append]
            simp only [closedIds]
            exact nodup_append_singleton _ h0 hnd hh0nc
          · intro id hid
            rw [closedIds_append] at hid
            simp only [closedIds, List.mem_append, List.mem_singleton] at hid
            rw [openedIds_append]
            simp only [openedIds, List.mem_append, List.mem_singleton]
            rcases hid with hid | rfl
            · exact Or.inl (hco id hid)
            · exact Or.inl hh0op
          · intro h hh
            have hsa : h = sa := (Option.some.inj hh).symm
            rw [hsa]
            refine ⟨Nat.lt_succ_self sa, ?_, ?_⟩
            · rw [closedIds_append]
              simp only [closedIds, List.mem_append, List.mem_singleton]
              rintro (hmem | rfl)
              · exact absurd (hc sa hmem) (lt_irrefl sa)
              · exact absurd hh0lt (lt_irrefl sa)
            · rw [openedIds_append]
              simp only [openedIds, List.mem_append, List.mem_singleton]
              exact Or.inr (by trivial)
        | false =>
          rw [myXPAget_rst_fail env h0 sa henv]
          refine ⟨?_, ?_, ?_, ?_, fun h hh => Option.noConfusion hh⟩
          · intro id hid
            rw [closedIds_append] at hid
            simp only [closedIds, List.mem_append, List.mem_singleton] at hid
            rcases hid with hid | rfl
            · exact Nat.lt_succ_of_lt (hc id hid)
            · exact Nat.lt_succ_of_lt hh0lt
          · intro id hid
            rw [openedIds_append] at hid
            simp only [openedIds, List.append_nil] at hid
            exact Nat.lt_succ_of_lt (ho id hid)
          · rw [closedIds_append]
            simp only [closedIds]
            exact nodup_append_singleton _ h0 hnd hh0nc
          · intro id hid
            rw [closedIds_append] at hid
            simp only [closedIds, List.mem_append, List.mem_singleton] at hid
            rw [openedIds_append]
            simp only [openedIds, List.append_nil]
            rcases hid with hid | rfl
            · exact hco id hid
            · exact hh0op

/-- Every operation preserves the bookkeeping invariant. -/
theorem stepOp_MgrInv (env : Nat → Bool) (op : Op) (s : MgrState)
    (evs : List Ev) (hI : MgrInv s evs) :
    MgrInv (stepOp env op s).1 (evs ++ (stepOp env op s).2.1) := by
  cases op with
  | acquire => exact myXPAget_MgrInv env false s evs hI
  | rst => exact myXPAget_MgrInv env true s evs hI
  | reqExplicit h =>
    simp only [stepOp, List.append_nil]
    exact hI

/-- Any run from an invariant-satisfying configuration ends in one. -/
theorem runOps_MgrInv (env : Nat → Bool) (ops : List Op) :
    ∀ (s : MgrState) (evs : List Ev), MgrInv s evs →
      MgrInv (runOps env s ops).1 (evs ++ (runOps env s ops).2.1) := by
  induction ops with
  | nil => intro s evs h; simpa [runOps] using h
  | cons op ops ih =>
    intro s evs h
    have h1 := stepOp_MgrInv env op s evs h
    have h2 := ih _ _ h1
    simpa [runOps, List.append_assoc] using h2

/-- The bookkeeping invariant holds at program start. -/
theorem MgrInv_init : MgrInv initState [] := by
  refine ⟨?_, ?_, ?_, ?_, ?_⟩ <;> simp [closedIds, openedIds, initState]

/-- C9 counterexample: no teardown close exists.  The singleton is a
heap-allocated object behind a `static myXPA *` pointer; nothing in the
source ever deletes it at process exit (only `myXPA::get(true)` does,
during a reset), so a handle still open when the program ends is closed
zero times, not exactly once.  Concretely: the complete program run
consisting of one implicit acquire opens handle 0, ends with it still
stored, and its full lifecycle trace contains no `XPAClose` at all. -/
theorem C9_no_teardown_close_counterexample :
    runOps (fun _ => true) initState [Op.acquire] =
      ({ xpa := some 0, attempts := 1 }, [Ev.opened 0 "w"], [.ok 0]) ∧
    closedIds (runOps (fun _ => true) initState [Op.acquire]).2.1 = [] :=
  ⟨rfl, rfl⟩

/-- C9 amended: over any whole-program operation sequence, no handle is
ever closed twice (the closed ids are duplicate-free), every closed
handle had been opened, and a handle still stored when the program ends
was never closed — i.e. closes are exactly-once per reset but a handle
open at process teardown is leaked, not closed. -/
theorem C9_close_at_most_once (env : Nat → Bool) (ops : List Op) :
    (closedIds (runOps env initState ops).2.1).Nodup ∧
    (∀ id ∈ closedIds (runOps env initState ops).2.1,
      id ∈ openedIds (runOps env initState ops).2.1) ∧
    (∀ h, (runOps env initState ops).1.xpa = some h →
      h ∉ closedIds (runOps env initState ops).2.1) := by
  have h := runOps_MgrInv env ops initState [] MgrInv_init
  rw [List.nil_append] at h
  exact ⟨h.2.2.1, h.2.2.2.1, fun hh hmem => (h.2.2.2.2 hh hmem).2.1⟩

/-- Witness for C9 amended: run acquire, reset, reset with all opens
succeeding; handle 0 then 1 are each closed once (`closedIds = [0, 1]`,
duplicate-free by the theorem), both had been opened, and the final
handle 2 was never closed. -/
theorem C9_close_at_most_once_witness :
    (0 : Nat) ∈ openedIds (runOps (fun _ => true) initState
      [Op.acquire, Op.rst, Op.rst]).2.1 ∧
    (2 : Nat) ∉ closedIds (runOps (fun _ => true) initState
      [Op.acquire, Op.rst, Op.rst]).2.1 :=
  ⟨(C9_close_at_most_once (fun _ => true) [Op.acquire, Op.rst, Op.rst]).2.1
      0 (by decide),
   (C9_close_at_most_once (fun _ => true) [Op.acquire, Op.rst, Op.rst]).2.2
      2 rfl⟩
